import Mathlib

/-!
Verification of the drone-navigator mission simulation engine.

The definitions below are a shallow embedding of the simulation code:

* the mission simulation driver (`startDroneSimulation` and its interval
  callback in the server routes module, concatenated into
  `src/server/shared/schema.ts` in this snapshot),
* the in-memory storage layer (`MemStorage` in `src/server/storage.ts`),
* the waypoint geometry helpers
  (`src/client/src/lib/mission-calculations.ts`).

Numbers are modelled exactly: coordinates and the segment progress are
rationals (reals for the trigonometric distance function).  The only
numeric literal the driver accumulates is `0.05`; in IEEE doubles the
running sum of k copies of 0.05 first reaches 1 exactly at k = 20, the
same index at which k/20 reaches 1 in exact arithmetic, so the branch
structure of the embedded driver agrees with the JavaScript original at
every comparison it performs.
-/

namespace DroneNav

/-! ## Data model (shared/schema.ts) -/

/-- A lat/lng pair, the shape stored in `lastKnownLocation` and in the
simulation path (`waypoints.map(wp => ({ lat: wp.lat, lng: wp.lng }))`). -/
structure LatLng where
  lat : ℚ
  lng : ℚ
  deriving DecidableEq, Repr

instance : Inhabited LatLng := ⟨⟨0, 0⟩⟩

/-- A waypoint as validated by `waypointSchema`: lat, lng and an optional
altitude. -/
structure Waypoint where
  lat : ℚ
  lng : ℚ
  altitude : Option ℚ
  deriving DecidableEq, Repr

/-- A drone record.  The `drones` table has no `assignedMissionId` column,
but the runtime objects held by `MemStorage` acquire that property through
`updateDrone` spreads (`{ ...drone, ...update }`), so the record type
carries it; `none` models both `null` and `undefined` (no assigned
mission). -/
structure Drone where
  id : ℕ
  name : String
  model : String
  status : String
  batteryLevel : ℤ
  lastKnownLocation : LatLng
  organizationId : ℕ
  assignedMissionId : Option ℕ
  deriving DecidableEq, Repr

/-- A mission record (the fields the simulation engine reads or writes). -/
structure Mission where
  id : ℕ
  name : String
  status : String
  organizationId : ℕ
  deriving DecidableEq, Repr

/-- A drone assignment: links a drone to a mission and carries the
waypoints (`drone_assignments` table). -/
structure DroneAssignment where
  id : ℕ
  droneId : ℕ
  missionId : ℕ
  waypoints : List Waypoint
  deriving DecidableEq, Repr

/-- The `Partial<Drone>` updates the engine passes to
`storage.updateDrone`.  Only the three fields the engine ever touches are
representable; `none` means the field is absent from the update object.
For `assignedMissionId`, `some none` models an explicit
`assignedMissionId: undefined` entry, which a JavaScript spread does copy
over the old value. -/
structure DronePatch where
  lastKnownLocation : Option LatLng
  status : Option String
  assignedMissionId : Option (Option ℕ)
  deriving DecidableEq, Repr

/-- `{ ...drone, ...update }` as performed by `MemStorage.updateDrone`. -/
def applyDronePatch (d : Drone) (p : DronePatch) : Drone :=
  { d with
    lastKnownLocation := p.lastKnownLocation.getD d.lastKnownLocation
    status := p.status.getD d.status
    assignedMissionId :=
      match p.assignedMissionId with
      | none => d.assignedMissionId
      | some v => v }

/-- The `Partial<Mission>` updates the engine passes to
`storage.updateMission` (only `{ status: ... }` is ever used). -/
structure MissionPatch where
  status : Option String
  deriving DecidableEq, Repr

/-- `{ ...mission, ...update }` as performed by
`MemStorage.updateMission`. -/
def applyMissionPatch (m : Mission) (p : MissionPatch) : Mission :=
  { m with status := p.status.getD m.status }

/-- The runtime state of one active mission simulation, the value type of
the `activeMissionSimulations` map.  The source object literal carries
`activeDrones`, `currentWaypointIndex`, `path` and `intervalId`; the
fractional segment `progress` lives in the closure of the interval
callback (one closure per running interval, so at most one live value per
mission), and is modelled here as a field of the entry. -/
structure SimEntry where
  activeDrones : List ℕ
  currentWaypointIndex : ℕ
  path : List LatLng
  intervalId : Option ℕ
  progress : ℚ
  deriving DecidableEq, Repr

/-- The complete server-side state the simulation engine interacts with:
the `MemStorage` maps, the `activeMissionSimulations` registry, the set of
scheduled intervals (for `setInterval` / `clearInterval`), and the log of
`drone-location-update` events broadcast to the connected WebSocket
clients. -/
structure ServerState where
  drones : ℕ → Option Drone
  missions : ℕ → Option Mission
  assignments : List DroneAssignment
  sims : ℕ → Option SimEntry
  activeIntervals : List ℕ
  nextIntervalId : ℕ
  broadcasts : List Drone

/-! ## Storage operations (server/storage.ts) -/

/-- `MemStorage.updateDrone`: look the drone up; if absent return with no
change, otherwise store the spread of the old record and the update. -/
def ServerState.updateDrone (s : ServerState) (id : ℕ) (p : DronePatch) :
    ServerState :=
  match s.drones id with
  | none => s
  | some d =>
      { s with
        drones := fun i => if i = id then some (applyDronePatch d p)
                           else s.drones i }

/-- `MemStorage.updateMission`: same shape as `updateDrone`. -/
def ServerState.updateMission (s : ServerState) (id : ℕ) (p : MissionPatch) :
    ServerState :=
  match s.missions id with
  | none => s
  | some m =>
      { s with
        missions := fun i => if i = id then some (applyMissionPatch m p)
                             else s.missions i }

/-- Write (or remove, with `none`) the registry entry of one mission in
the `activeMissionSimulations` map. -/
def ServerState.setSim (s : ServerState) (id : ℕ) (e : Option SimEntry) :
    ServerState :=
  { s with sims := fun i => if i = id then e else s.sims i }

/-- `MemStorage.getDroneAssignmentsByMission`. -/
def ServerState.getDroneAssignmentsByMission (s : ServerState)
    (missionId : ℕ) : List DroneAssignment :=
  s.assignments.filter (fun a => a.missionId = missionId)

/-! ## Broadcast channel (routes: broadcastDroneUpdate) -/

/-- `broadcastDroneUpdate(drone)`: send a `drone-location-update` event
carrying the drone to every open WebSocket client.  The model records the
event in a log. -/
def ServerState.broadcastDroneUpdate (s : ServerState) (d : Drone) :
    ServerState :=
  { s with broadcasts := s.broadcasts ++ [d] }

/-- The pattern `const u = await storage.getDrone(id); if (u)
broadcastDroneUpdate(u);` used after every engine write. -/
def ServerState.broadcastIfPresent (s : ServerState) (id : ℕ) : ServerState :=
  match s.drones id with
  | none => s
  | some d => s.broadcastDroneUpdate d

/-- `clearInterval(handle)`; clearing a null handle is a no-op. -/
def ServerState.clearTick (s : ServerState) (iv : Option ℕ) : ServerState :=
  match iv with
  | none => s
  | some i => { s with activeIntervals := s.activeIntervals.erase i }

/-! ## The simulation driver (routes: startDroneSimulation) -/

/-- The segment interpolation inlined in the interval callback:
`newLat = from.lat + (to.lat - from.lat) * progress`, and the same for
lng. -/
def interpolate (a b : LatLng) (fraction : ℚ) : LatLng :=
  ⟨a.lat + (b.lat - a.lat) * fraction, a.lng + (b.lng - a.lng) * fraction⟩

/-- Both `for (const droneId of simulation.activeDrones)` loops of the
interval callback have this shape: `storage.updateDrone(droneId, patch)`
followed by a get-and-broadcast of the updated record. -/
def updateAndBroadcastAll (ids : List ℕ) (p : DronePatch) (s : ServerState) :
    ServerState :=
  ids.foldl
    (fun acc droneId => (acc.updateDrone droneId p).broadcastIfPresent droneId)
    s

/-- One invocation of the interval callback registered by
`startDroneSimulation` for `missionId`.  `ivId` is the `sim.intervalId`
captured by the callback closure at creation time (used only when the
registry entry has disappeared).  Mirrors the source line by line:

1. if the registry entry is gone, clear the interval and return;
2. if `currentWaypointIndex >= path.length - 1`, run the completion
   transition (final positions, statuses, mission status, registry
   removal);
3. otherwise add 0.05 to the progress closure variable; when it reaches 1
   reset it and advance `currentWaypointIndex`, returning early when the
   new index is the last one;
4. interpolate the current segment and write/broadcast the position of
   every active drone.

Out-of-range list accesses cannot occur on entries created by
`startDroneSimulation` (paths have at least 2 waypoints and the guards
bound the index); they are rendered total with `getD`. -/
def tick (missionId : ℕ) (ivId : Option ℕ) (s : ServerState) : ServerState :=
  match s.sims missionId with
  | none => s.clearTick ivId
  | some simulation =>
    let path := simulation.path
    if path.length - 1 ≤ simulation.currentWaypointIndex then
      -- Reached the end of the path
      let s1 := s.clearTick simulation.intervalId
      let s2 := updateAndBroadcastAll simulation.activeDrones
        { lastKnownLocation := some (path.getD (path.length - 1) ⟨0, 0⟩),
          status := some "available",
          assignedMissionId := some none } s1
      let s3 := s2.updateMission missionId { status := some "completed" }
      s3.setSim missionId none
    else
      -- Move 5% along the current segment each update
      let progress := simulation.progress + 5 / 100
      if 1 ≤ progress then
        let newIndex := simulation.currentWaypointIndex + 1
        let advanced := { simulation with
          currentWaypointIndex := newIndex, progress := 0 }
        if path.length - 1 ≤ newIndex then
          -- handled in the next iteration: only the index/progress writes persist
          s.setSim missionId (some advanced)
        else
          let s1 := s.setSim missionId (some advanced)
          let newLocation := interpolate (path.getD newIndex ⟨0, 0⟩)
            (path.getD (newIndex + 1) ⟨0, 0⟩) (0 : ℚ)
          updateAndBroadcastAll advanced.activeDrones
            { lastKnownLocation := some newLocation,
              status := none, assignedMissionId := none } s1
      else
        let moved := { simulation with progress := progress }
        let s1 := s.setSim missionId (some moved)
        let newLocation := interpolate
          (path.getD moved.currentWaypointIndex ⟨0, 0⟩)
          (path.getD (moved.currentWaypointIndex + 1) ⟨0, 0⟩) progress
        updateAndBroadcastAll moved.activeDrones
          { lastKnownLocation := some newLocation,
            status := none, assignedMissionId := none } s1

/-- `n` consecutive invocations of the interval callback for one
mission. -/
def runTicks (n : ℕ) (missionId : ℕ) (ivId : Option ℕ) (s : ServerState) :
    ServerState :=
  (tick missionId ivId)^[n] s

/-- The result channel of `startDroneSimulation`: the function logs
"insufficient waypoints" and returns without touching any state when the
path is too short, and otherwise starts (or merges into) the
simulation. -/
inductive StartResult where
  | insufficientWaypoints
  | ok
  deriving DecidableEq, Repr

/-- `startDroneSimulation(missionId, drone, waypoints)`:

1. reject paths of fewer than 2 waypoints;
2. map the waypoints to a lat/lng path;
3. write the drone to the first waypoint with status `in-mission` and the
   mission id, and broadcast the updated record;
4. create the registry entry, or merge the drone id into an existing one;
5. schedule the interval callback only if the entry has no interval yet
   (`sim.intervalId === null`).

The local `currentWaypointIndex = 0` and `progress = 0` of the source are
the initial entry fields; on the merge path the fresh progress closure is
never captured by an interval and is dropped. -/
def startDroneSimulation (missionId : ℕ) (drone : Drone)
    (waypoints : List Waypoint) (s : ServerState) :
    StartResult × ServerState :=
  if waypoints.length < 2 then (.insufficientWaypoints, s)
  else
    let path := waypoints.map (fun wp => (⟨wp.lat, wp.lng⟩ : LatLng))
    let s1 := s.updateDrone drone.id
      { lastKnownLocation := some (path.getD 0 ⟨0, 0⟩),
        status := some "in-mission",
        assignedMissionId := some (some missionId) }
    let s2 := s1.broadcastIfPresent drone.id
    let s3 :=
      match s2.sims missionId with
      | none =>
          s2.setSim missionId (some
            { activeDrones := [drone.id],
              currentWaypointIndex := 0,
              path := path,
              intervalId := none,
              progress := 0 })
      | some sim =>
          if drone.id ∈ sim.activeDrones then s2
          else
            s2.setSim missionId (some
              { sim with activeDrones := sim.activeDrones ++ [drone.id] })
    match s3.sims missionId with
    | none => (.ok, s3)
    | some sim =>
      match sim.intervalId with
      | some _ => (.ok, s3)
      | none =>
          (.ok,
            { s3.setSim missionId (some
                { sim with intervalId := some s3.nextIntervalId }) with
              activeIntervals := s3.activeIntervals ++ [s3.nextIntervalId],
              nextIntervalId := s3.nextIntervalId + 1 })

/-! ## Request handlers (routes: WebSocket message handler) -/

/-- The waypoint list the start handler resolves for a mission: the first
assignment list when one exists, otherwise the mission-level list — which
`MemStorage.getMission` itself populates from the first assignment, so it
collapses to `[]` when there is no assignment. -/
def effectiveWaypoints (s : ServerState) (missionId : ℕ) : List Waypoint :=
  match s.getDroneAssignmentsByMission missionId with
  | a :: _ => a.waypoints
  | [] => []

/-- The `start-mission-simulation` message handler: look up mission and
drone; source the waypoints (see `effectiveWaypoints`) and call
`startDroneSimulation`. -/
def handleStartMissionSimulation (missionId droneId : ℕ) (s : ServerState) :
    ServerState :=
  match s.missions missionId, s.drones droneId with
  | some _, some drone =>
      (startDroneSimulation missionId drone (effectiveWaypoints s missionId)
        s).2
  | _, _ => s

/-- The `drone-location-update` message handler (manual operator
override): if the drone exists, write the location through
`storage.updateDrone` and broadcast the updated record — the same
write-then-publish path the driver uses; if it does not exist, the
handler body is skipped entirely (the source has no else branch, no error
reply, no log). -/
def handleDroneLocationUpdate (droneId : ℕ) (location : LatLng)
    (s : ServerState) : ServerState :=
  match s.drones droneId with
  | none => s
  | some _ =>
      let s1 := s.updateDrone droneId
        { lastKnownLocation := some location,
          status := none, assignedMissionId := none }
      s1.broadcastIfPresent droneId

/-- Modelled from the spec: the source never exposes a stop operation on
the `activeMissionSimulations` registry (entries are only removed by the
completion transition); the spec section 4.2 defines
`stop(missionId)` as cancelling the tick schedule and removing the entry,
idempotent on unknown ids. -/
def stopSimulation (missionId : ℕ) (s : ServerState) : ServerState :=
  match s.sims missionId with
  | none => s
  | some e => (s.clearTick e.intervalId).setSim missionId none

/-! ## Waypoint geometry (client/src/lib/mission-calculations.ts)

Two semantic levels are embedded.  The total level works on real-valued
coordinates and models the behaviour on well-formed points.  The
JavaScript level works on `Option`-valued operands, where `none` models
both a missing (`undefined`) coordinate and the `NaN` it turns into: any
arithmetic operation or `Math.*` call touching such an operand yields
`NaN` again. -/

/-- `Math.atan2(y, x)`, the mathematical two-argument arctangent. -/
noncomputable def atan2 (y x : ℝ) : ℝ :=
  if 0 < x then Real.arctan (y / x)
  else if x < 0 ∧ 0 ≤ y then Real.arctan (y / x) + Real.pi
  else if x < 0 ∧ y < 0 then Real.arctan (y / x) - Real.pi
  else if x = 0 ∧ 0 < y then Real.pi / 2
  else if x = 0 ∧ y < 0 then -(Real.pi / 2)
  else 0

/-- `calculateDistance(lat1, lon1, lat2, lon2)`: the haversine distance in
meters on a sphere of radius 6 371 000 m, exactly as written in
mission-calculations.ts. -/
noncomputable def calculateDistance (lat1 lon1 lat2 lon2 : ℝ) : ℝ :=
  let R : ℝ := 6371000
  let phi1 := lat1 * Real.pi / 180
  let phi2 := lat2 * Real.pi / 180
  let dphi := (lat2 - lat1) * Real.pi / 180
  let dlam := (lon2 - lon1) * Real.pi / 180
  let a := Real.sin (dphi / 2) * Real.sin (dphi / 2) +
    Real.cos phi1 * Real.cos phi2 * Real.sin (dlam / 2) * Real.sin (dlam / 2)
  let c := 2 * atan2 (Real.sqrt a) (Real.sqrt (1 - a))
  R * c

/-- JavaScript addition with undefined/NaN propagation. -/
def jsAdd {α : Type} [Add α] : Option α → Option α → Option α
  | some a, some b => some (a + b)
  | _, _ => none

/-- JavaScript subtraction with undefined/NaN propagation. -/
def jsSub {α : Type} [Sub α] : Option α → Option α → Option α
  | some a, some b => some (a - b)
  | _, _ => none

/-- JavaScript multiplication with undefined/NaN propagation. -/
def jsMul {α : Type} [Mul α] : Option α → Option α → Option α
  | some a, some b => some (a * b)
  | _, _ => none

/-- JavaScript division with undefined/NaN propagation (only used with
non-zero constant divisors here). -/
def jsDiv {α : Type} [Div α] : Option α → Option α → Option α
  | some a, some b => some (a / b)
  | _, _ => none

/-- `Math.sin` on a possibly-NaN operand. -/
noncomputable def jsSin : Option ℝ → Option ℝ := Option.map Real.sin

/-- `Math.cos` on a possibly-NaN operand. -/
noncomputable def jsCos : Option ℝ → Option ℝ := Option.map Real.cos

/-- `Math.sqrt` on a possibly-NaN operand (the value on nonnegative
defined operands is the real square root; the NaN propagation is what
this level captures). -/
noncomputable def jsSqrt : Option ℝ → Option ℝ := Option.map Real.sqrt

/-- `Math.atan2` on possibly-NaN operands. -/
noncomputable def jsAtan2 : Option ℝ → Option ℝ → Option ℝ
  | some y, some x => some (atan2 y x)
  | _, _ => none

/-- `calculateDistance` at the JavaScript level: a point with a missing
`lat` or `lng` feeds `undefined` into the formula and every operation
thereafter produces `NaN`. -/
noncomputable def calculateDistanceJS (lat1 lon1 lat2 lon2 : Option ℝ) :
    Option ℝ :=
  let R : Option ℝ := some 6371000
  let pi : Option ℝ := some Real.pi
  let c180 : Option ℝ := some 180
  let phi1 := jsDiv (jsMul lat1 pi) c180
  let phi2 := jsDiv (jsMul lat2 pi) c180
  let dphi := jsDiv (jsMul (jsSub lat2 lat1) pi) c180
  let dlam := jsDiv (jsMul (jsSub lon2 lon1) pi) c180
  let two : Option ℝ := some 2
  let a := jsAdd
    (jsMul (jsSin (jsDiv dphi two)) (jsSin (jsDiv dphi two)))
    (jsMul (jsMul (jsCos phi1) (jsCos phi2))
      (jsMul (jsSin (jsDiv dlam two)) (jsSin (jsDiv dlam two))))
  let c := jsMul two (jsAtan2 (jsSqrt a) (jsSqrt (jsSub (some 1) a)))
  jsMul R c

/-- A point as the driver actually receives it from the waypoint JSON: a
coordinate may be missing (`undefined`). -/
structure JPoint where
  lat : Option ℚ
  lng : Option ℚ
  deriving DecidableEq, Repr

/-- The segment interpolation of the interval callback at the JavaScript
level: `from.lat + (to.lat - from.lat) * progress` with undefined/NaN
propagation.  The progress accumulator itself is always a number. -/
def jsInterpolate (a b : JPoint) (progress : ℚ) : JPoint :=
  ⟨jsAdd a.lat (jsMul (jsSub b.lat a.lat) (some progress)),
   jsAdd a.lng (jsMul (jsSub b.lng a.lng) (some progress))⟩

/-- Round-to-nearest, ties-to-even, at the precision of an IEEE binary64
mantissa (53 bits), for nonzero values in the normal range: the result is
the nearest multiple of the ulp `2 ^ (Int.log 2 |q| - 52)`, ties going to
the even multiple; zero maps to zero.  Subnormal underflow and overflow to
infinity lie outside the range this model is applied to. -/
def roundB64 (q : ℚ) : ℚ :=
  if q = 0 then 0
  else
    let e : ℤ := Int.log 2 |q| - 52
    let scaled : ℚ := q / 2 ^ e
    let lo : ℤ := ⌊scaled⌋
    let m : ℤ :=
      if scaled - lo < 1 / 2 then lo
      else if 1 / 2 < scaled - lo then lo + 1
      else if lo % 2 = 0 then lo else lo + 1
    (m : ℚ) * 2 ^ e

/-- IEEE binary64 addition: the exact sum, rounded. -/
def flAdd (x y : ℚ) : ℚ := roundB64 (x + y)

/-- IEEE binary64 subtraction: the exact difference, rounded. -/
def flSub (x y : ℚ) : ℚ := roundB64 (x - y)

/-- IEEE binary64 multiplication: the exact product, rounded. -/
def flMul (x y : ℚ) : ℚ := roundB64 (x * y)

/-- The segment interpolation of the interval callback as the program
actually evaluates it, in IEEE binary64 doubles:
`newLat = from.lat + (to.lat - from.lat) * progress` with every operation
rounding its exact result (coordinates stand for the rational values of
the doubles). -/
def flInterpolate (a b : LatLng) (fraction : ℚ) : LatLng :=
  ⟨flAdd a.lat (flMul (flSub b.lat a.lat) fraction),
   flAdd a.lng (flMul (flSub b.lng a.lng) fraction)⟩

/-! ## Concrete fixtures used by counterexamples and witnesses -/

/-- A server state with empty stores. -/
def emptyState : ServerState :=
  { drones := fun _ => none
    missions := fun _ => none
    assignments := []
    sims := fun _ => none
    activeIntervals := []
    nextIntervalId := 0
    broadcasts := [] }

/-- A sample drone with id 1. -/
def exDrone : Drone :=
  { id := 1, name := "D", model := "M1", status := "available",
    batteryLevel := 100, lastKnownLocation := ⟨5, 5⟩,
    organizationId := 1, assignedMissionId := none }

/-- A sample mission with id 1, still in progress. -/
def exMission : Mission :=
  { id := 1, name := "M", status := "in-progress", organizationId := 1 }

/-- The two-waypoint path of the spec scenario in section 8:
`[(0,0), (0,1)]`. -/
def exWaypoints : List Waypoint := [⟨0, 0, none⟩, ⟨0, 1, none⟩]

/-- A server state holding the sample drone and mission and no active
simulation. -/
def exState : ServerState :=
  { drones := fun i => if i = 1 then some exDrone else none
    missions := fun i => if i = 1 then some exMission else none
    assignments := []
    sims := fun _ => none
    activeIntervals := []
    nextIntervalId := 0
    broadcasts := [] }

/-- A registry entry that has reached the end of its two-waypoint path. -/
def exEntryEnd : SimEntry :=
  { activeDrones := [1], currentWaypointIndex := 1,
    path := [⟨0, 0⟩, ⟨0, 1⟩], intervalId := some 0, progress := 0 }

/-- `exState` with the end-of-path entry registered and its interval
scheduled. -/
def exEndState : ServerState :=
  { exState with
    sims := fun i => if i = 1 then some exEntryEnd else none
    activeIntervals := [0]
    nextIntervalId := 1 }

/-- A registry entry still at the start of its first segment. -/
def exEntryMid : SimEntry :=
  { activeDrones := [1], currentWaypointIndex := 0,
    path := [⟨0, 0⟩, ⟨0, 1⟩], intervalId := some 0, progress := 0 }

/-- `exState` with the mid-flight entry registered and its interval
scheduled. -/
def exMidState : ServerState :=
  { exState with
    sims := fun i => if i = 1 then some exEntryMid else none
    activeIntervals := [0]
    nextIntervalId := 1 }

/-! ## Basic lemmas about the storage and broadcast operations -/

theorem updateDrone_drones (s : ServerState) (id : ℕ) (p : DronePatch)
    (i : ℕ) :
    (s.updateDrone id p).drones i =
      if i = id then (s.drones id).map (fun d => applyDronePatch d p)
      else s.drones i := by
  unfold ServerState.updateDrone
  cases h : s.drones id with
  | none =>
      by_cases he : i = id
      · simp [he, h]
      · simp [he]
  | some d => simp [h]

theorem updateDrone_sims (s : ServerState) (id : ℕ) (p : DronePatch) :
    (s.updateDrone id p).sims = s.sims := by
  unfold ServerState.updateDrone; cases s.drones id <;> rfl

theorem updateDrone_missions (s : ServerState) (id : ℕ) (p : DronePatch) :
    (s.updateDrone id p).missions = s.missions := by
  unfold ServerState.updateDrone; cases s.drones id <;> rfl

theorem updateDrone_activeIntervals (s : ServerState) (id : ℕ)
    (p : DronePatch) :
    (s.updateDrone id p).activeIntervals = s.activeIntervals := by
  unfold ServerState.updateDrone; cases s.drones id <;> rfl

theorem updateDrone_nextIntervalId (s : ServerState) (id : ℕ)
    (p : DronePatch) :
    (s.updateDrone id p).nextIntervalId = s.nextIntervalId := by
  unfold ServerState.updateDrone; cases s.drones id <;> rfl

theorem updateDrone_broadcasts (s : ServerState) (id : ℕ) (p : DronePatch) :
    (s.updateDrone id p).broadcasts = s.broadcasts := by
  unfold ServerState.updateDrone; cases s.drones id <;> rfl

theorem updateMission_missions (s : ServerState) (id : ℕ) (p : MissionPatch)
    (i : ℕ) :
    (s.updateMission id p).missions i =
      if i = id then (s.missions id).map (fun m => applyMissionPatch m p)
      else s.missions i := by
  unfold ServerState.updateMission
  cases h : s.missions id with
  | none =>
      by_cases he : i = id
      · simp [he, h]
      · simp [he]
  | some m => simp [h]

theorem updateMission_drones (s : ServerState) (id : ℕ) (p : MissionPatch) :
    (s.updateMission id p).drones = s.drones := by
  unfold ServerState.updateMission; cases s.missions id <;> rfl

theorem updateMission_sims (s : ServerState) (id : ℕ) (p : MissionPatch) :
    (s.updateMission id p).sims = s.sims := by
  unfold ServerState.updateMission; cases s.missions id <;> rfl

theorem updateMission_broadcasts (s : ServerState) (id : ℕ)
    (p : MissionPatch) :
    (s.updateMission id p).broadcasts = s.broadcasts := by
  unfold ServerState.updateMission; cases s.missions id <;> rfl

theorem updateMission_activeIntervals (s : ServerState) (id : ℕ)
    (p : MissionPatch) :
    (s.updateMission id p).activeIntervals = s.activeIntervals := by
  unfold ServerState.updateMission; cases s.missions id <;> rfl

theorem broadcastIfPresent_drones (s : ServerState) (id : ℕ) :
    (s.broadcastIfPresent id).drones = s.drones := by
  unfold ServerState.broadcastIfPresent; cases s.drones id <;> rfl

theorem broadcastIfPresent_sims (s : ServerState) (id : ℕ) :
    (s.broadcastIfPresent id).sims = s.sims := by
  unfold ServerState.broadcastIfPresent; cases s.drones id <;> rfl

theorem broadcastIfPresent_missions (s : ServerState) (id : ℕ) :
    (s.broadcastIfPresent id).missions = s.missions := by
  unfold ServerState.broadcastIfPresent; cases s.drones id <;> rfl

theorem broadcastIfPresent_activeIntervals (s : ServerState) (id : ℕ) :
    (s.broadcastIfPresent id).activeIntervals = s.activeIntervals := by
  unfold ServerState.broadcastIfPresent; cases s.drones id <;> rfl

theorem broadcastIfPresent_nextIntervalId (s : ServerState) (id : ℕ) :
    (s.broadcastIfPresent id).nextIntervalId = s.nextIntervalId := by
  unfold ServerState.broadcastIfPresent; cases s.drones id <;> rfl

theorem broadcastIfPresent_broadcasts (s : ServerState) (id : ℕ) :
    ∃ t, (s.broadcastIfPresent id).broadcasts = s.broadcasts ++ t := by
  unfold ServerState.broadcastIfPresent
  cases s.drones id with
  | none => exact ⟨[], (List.append_nil _).symm⟩
  | some d => exact ⟨[d], rfl⟩

theorem broadcastIfPresent_broadcasts_of_some (s : ServerState) (id : ℕ)
    (d : Drone) (h : s.drones id = some d) :
    (s.broadcastIfPresent id).broadcasts = s.broadcasts ++ [d] := by
  unfold ServerState.broadcastIfPresent
  rw [h]; rfl

theorem clearTick_drones (s : ServerState) (iv : Option ℕ) :
    (s.clearTick iv).drones = s.drones := by
  unfold ServerState.clearTick; cases iv <;> rfl

theorem clearTick_missions (s : ServerState) (iv : Option ℕ) :
    (s.clearTick iv).missions = s.missions := by
  unfold ServerState.clearTick; cases iv <;> rfl

theorem clearTick_sims (s : ServerState) (iv : Option ℕ) :
    (s.clearTick iv).sims = s.sims := by
  unfold ServerState.clearTick; cases iv <;> rfl

theorem clearTick_broadcasts (s : ServerState) (iv : Option ℕ) :
    (s.clearTick iv).broadcasts = s.broadcasts := by
  unfold ServerState.clearTick; cases iv <;> rfl

theorem setSim_sims (s : ServerState) (id : ℕ) (e : Option SimEntry)
    (i : ℕ) :
    (s.setSim id e).sims i = if i = id then e else s.sims i := rfl

theorem setSim_drones (s : ServerState) (id : ℕ) (e : Option SimEntry) :
    (s.setSim id e).drones = s.drones := rfl

theorem setSim_missions (s : ServerState) (id : ℕ) (e : Option SimEntry) :
    (s.setSim id e).missions = s.missions := rfl

theorem setSim_broadcasts (s : ServerState) (id : ℕ) (e : Option SimEntry) :
    (s.setSim id e).broadcasts = s.broadcasts := rfl

theorem setSim_activeIntervals (s : ServerState) (id : ℕ)
    (e : Option SimEntry) :
    (s.setSim id e).activeIntervals = s.activeIntervals := rfl

theorem setSim_nextIntervalId (s : ServerState) (id : ℕ)
    (e : Option SimEntry) :
    (s.setSim id e).nextIntervalId = s.nextIntervalId := rfl

/-! ## Lemmas about the for-loops over active drones -/

theorem uab_nil (p : DronePatch) (s : ServerState) :
    updateAndBroadcastAll [] p s = s := rfl

theorem uab_cons (j : ℕ) (ids : List ℕ) (p : DronePatch) (s : ServerState) :
    updateAndBroadcastAll (j :: ids) p s =
      updateAndBroadcastAll ids p ((s.updateDrone j p).broadcastIfPresent j) :=
  rfl

theorem uab_sims (ids : List ℕ) (p : DronePatch) (s : ServerState) :
    (updateAndBroadcastAll ids p s).sims = s.sims := by
  induction ids generalizing s with
  | nil => rfl
  | cons j ids ih =>
      rw [uab_cons, ih, broadcastIfPresent_sims, updateDrone_sims]

theorem uab_missions (ids : List ℕ) (p : DronePatch) (s : ServerState) :
    (updateAndBroadcastAll ids p s).missions = s.missions := by
  induction ids generalizing s with
  | nil => rfl
  | cons j ids ih =>
      rw [uab_cons, ih, broadcastIfPresent_missions, updateDrone_missions]

theorem uab_activeIntervals (ids : List ℕ) (p : DronePatch)
    (s : ServerState) :
    (updateAndBroadcastAll ids p s).activeIntervals = s.activeIntervals := by
  induction ids generalizing s with
  | nil => rfl
  | cons j ids ih =>
      rw [uab_cons, ih, broadcastIfPresent_activeIntervals,
        updateDrone_activeIntervals]

theorem uab_nextIntervalId (ids : List ℕ) (p : DronePatch)
    (s : ServerState) :
    (updateAndBroadcastAll ids p s).nextIntervalId = s.nextIntervalId := by
  induction ids generalizing s with
  | nil => rfl
  | cons j ids ih =>
      rw [uab_cons, ih, broadcastIfPresent_nextIntervalId,
        updateDrone_nextIntervalId]

theorem uab_drones_not_mem (ids : List ℕ) (p : DronePatch) (s : ServerState)
    (i : ℕ) (h : i ∉ ids) :
    (updateAndBroadcastAll ids p s).drones i = s.drones i := by
  induction ids generalizing s with
  | nil => rfl
  | cons j ids ih =>
      have hne : i ≠ j := fun he => h (by rw [he]; exact List.mem_cons_self j ids)
      rw [uab_cons, ih _ (fun hm => h (List.mem_cons_of_mem _ hm)),
        broadcastIfPresent_drones, updateDrone_drones, if_neg hne]

theorem uab_drones_isSome (ids : List ℕ) (p : DronePatch) (s : ServerState)
    (i : ℕ) (h : (s.drones i).isSome) :
    ((updateAndBroadcastAll ids p s).drones i).isSome := by
  induction ids generalizing s with
  | nil => exact h
  | cons j ids ih =>
      rw [uab_cons]
      refine ih _ ?_
      rw [broadcastIfPresent_drones, updateDrone_drones]
      split
      · next he =>
          cases hd : s.drones j with
          | none => rw [he] at h; rw [hd] at h; exact absurd h (by simp)
          | some d => simp [hd]
      · exact h

theorem uab_broadcasts_append (ids : List ℕ) (p : DronePatch)
    (s : ServerState) :
    ∃ t, (updateAndBroadcastAll ids p s).broadcasts = s.broadcasts ++ t := by
  induction ids generalizing s with
  | nil => exact ⟨[], (List.append_nil _).symm⟩
  | cons j ids ih =>
      rw [uab_cons]
      obtain ⟨t1, ht1⟩ := ih ((s.updateDrone j p).broadcastIfPresent j)
      obtain ⟨t0, ht0⟩ :=
        broadcastIfPresent_broadcasts (s.updateDrone j p) j
      rw [updateDrone_broadcasts] at ht0
      exact ⟨t0 ++ t1, by rw [ht1, ht0, List.append_assoc]⟩

theorem uab_drones_mem (ids : List ℕ) (p : DronePatch) (s : ServerState)
    (j : ℕ) (d : Drone) (hnd : ids.Nodup) (hj : j ∈ ids)
    (hd : s.drones j = some d) :
    (updateAndBroadcastAll ids p s).drones j = some (applyDronePatch d p) ∧
    ∃ t, (updateAndBroadcastAll ids p s).broadcasts = s.broadcasts ++ t ∧
      applyDronePatch d p ∈ t := by
  induction ids generalizing s d with
  | nil => exact absurd hj (List.not_mem_nil j)
  | cons j' ids ih =>
      rw [uab_cons]
      rcases List.mem_cons.mp hj with he | hm
      · subst he
        have hupd : ((s.updateDrone j p).broadcastIfPresent j).drones j =
            some (applyDronePatch d p) := by
          rw [broadcastIfPresent_drones, updateDrone_drones, if_pos rfl, hd]
          rfl
        have hnotin : j ∉ ids := (List.nodup_cons.mp hnd).1
        have hb : ((s.updateDrone j p).broadcastIfPresent j).broadcasts =
            s.broadcasts ++ [applyDronePatch d p] := by
          rw [broadcastIfPresent_broadcasts_of_some _ _ _
            (by rw [updateDrone_drones, if_pos rfl, hd]; rfl),
            updateDrone_broadcasts]
        refine ⟨?_, ?_⟩
        · rw [uab_drones_not_mem _ _ _ _ hnotin, hupd]
        · obtain ⟨t1, ht1⟩ :=
            uab_broadcasts_append ids p ((s.updateDrone j p).broadcastIfPresent j)
          exact ⟨[applyDronePatch d p] ++ t1,
            by rw [ht1, hb, List.append_assoc],
            List.mem_append_left _ (List.mem_singleton.mpr rfl)⟩
      · have hne : j ≠ j' := fun he =>
          (List.nodup_cons.mp hnd).1 (he ▸ hm)
        have hd' : ((s.updateDrone j' p).broadcastIfPresent j').drones j =
            some d := by
          rw [broadcastIfPresent_drones, updateDrone_drones, if_neg hne, hd]
        obtain ⟨h1, t1, ht1, hmem⟩ :=
          ih ((s.updateDrone j' p).broadcastIfPresent j') d
            (List.nodup_cons.mp hnd).2 hm hd'
        obtain ⟨t0, ht0⟩ :=
          broadcastIfPresent_broadcasts (s.updateDrone j' p) j'
        rw [updateDrone_broadcasts] at ht0
        exact ⟨h1, t0 ++ t1,
          by rw [ht1, ht0, List.append_assoc],
          List.mem_append_right _ hmem⟩

/-! ## The three branches of the interval callback -/

/-- The completion transition of the interval callback (helper shared by
several claim theorems): when the current segment index has reached the
last waypoint, every active drone is written to the final position with
status available and no assigned mission; the mission is marked completed;
the registry entry is removed; one drone-update event is broadcast per
(existing) active drone. -/
theorem tick_complete (m : ℕ) (iv : Option ℕ) (s : ServerState)
    (e : SimEntry) (mi : Mission)
    (hs : s.sims m = some e)
    (hend : e.path.length - 1 ≤ e.currentWaypointIndex)
    (hm : s.missions m = some mi)
    (hnd : e.activeDrones.Nodup)
    (hd : ∀ j, j ∈ e.activeDrones → (s.drones j).isSome) :
    (∀ j, j ∈ e.activeDrones → ∃ d', (tick m iv s).drones j = some d' ∧
      d'.lastKnownLocation = e.path.getD (e.path.length - 1) ⟨0, 0⟩ ∧
      d'.status = "available" ∧ d'.assignedMissionId = none) ∧
    (tick m iv s).missions m = some { mi with status := "completed" } ∧
    (tick m iv s).sims m = none ∧
    (∃ evs, (tick m iv s).broadcasts = s.broadcasts ++ evs ∧
      ∀ j, j ∈ e.activeDrones →
        ∃ d', (tick m iv s).drones j = some d' ∧ d' ∈ evs) := by
  have ht : tick m iv s =
      ((updateAndBroadcastAll e.activeDrones
          { lastKnownLocation := some (e.path.getD (e.path.length - 1) ⟨0, 0⟩),
            status := some "available", assignedMissionId := some none }
          (s.clearTick e.intervalId)).updateMission m
        { status := some "completed" }).setSim m none := by
    simp only [tick, hs]
    rw [if_pos hend]
  set p : DronePatch :=
    { lastKnownLocation := some (e.path.getD (e.path.length - 1) ⟨0, 0⟩),
      status := some "available", assignedMissionId := some none } with hp
  have hdr : ∀ j, j ∈ e.activeDrones → ∃ d, s.drones j = some d := by
    intro j hj
    exact Option.isSome_iff_exists.mp (hd j hj)
  refine ⟨?_, ?_, ?_, ?_⟩
  · intro j hj
    obtain ⟨d, hdj⟩ := hdr j hj
    have hdj' : (s.clearTick e.intervalId).drones j = some d := by
      rw [clearTick_drones]; exact hdj
    obtain ⟨h1, -⟩ := uab_drones_mem e.activeDrones p _ j d hnd hj hdj'
    refine ⟨applyDronePatch d p, ?_, ?_, ?_, ?_⟩
    · rw [ht]; rw [setSim_drones, updateMission_drones]; exact h1
    · simp [applyDronePatch, hp]
    · simp [applyDronePatch, hp]
    · simp [applyDronePatch, hp]
  · rw [ht, setSim_missions, updateMission_missions, if_pos rfl,
      uab_missions, clearTick_missions, hm]
    rfl
  · rw [ht, setSim_sims, if_pos rfl]
  · obtain ⟨evs, hevs⟩ :=
      uab_broadcasts_append e.activeDrones p (s.clearTick e.intervalId)
    refine ⟨evs, ?_, ?_⟩
    · rw [ht, setSim_broadcasts, updateMission_broadcasts, hevs,
        clearTick_broadcasts]
    · intro j hj
      obtain ⟨d, hdj⟩ := hdr j hj
      have hdj' : (s.clearTick e.intervalId).drones j = some d := by
        rw [clearTick_drones]; exact hdj
      obtain ⟨h1, t, htb, hmem⟩ :=
        uab_drones_mem e.activeDrones p _ j d hnd hj hdj'
      have hte : evs = t := by
        rw [htb, clearTick_broadcasts] at hevs
        exact (List.append_cancel_left hevs).symm
      refine ⟨applyDronePatch d p, ?_, hte ▸ hmem⟩
      rw [ht, setSim_drones, updateMission_drones]
      exact h1

/-- A mid-segment invocation of the interval callback: progress grows by
0.05, the entry survives with the same drones/path/index, the missions
store and the interval set are untouched, drone records stay present, and
every (distinct, existing) active drone gets exactly the interpolated
location written. -/
theorem tick_move (m : ℕ) (iv : Option ℕ) (s : ServerState) (e : SimEntry)
    (hs : s.sims m = some e)
    (hlt : e.currentWaypointIndex < e.path.length - 1)
    (hp : e.progress + 5 / 100 < 1) :
    (tick m iv s).sims m = some { e with progress := e.progress + 5 / 100 } ∧
    (tick m iv s).missions = s.missions ∧
    (∀ j, (s.drones j).isSome → ((tick m iv s).drones j).isSome) ∧
    (tick m iv s).activeIntervals = s.activeIntervals ∧
    (tick m iv s).nextIntervalId = s.nextIntervalId ∧
    (∀ j d, e.activeDrones.Nodup → j ∈ e.activeDrones →
      s.drones j = some d →
      (tick m iv s).drones j = some { d with lastKnownLocation := interpolate (e.path.getD e.currentWaypointIndex ⟨0, 0⟩) (e.path.getD (e.currentWaypointIndex + 1) ⟨0, 0⟩) (e.progress + 5 / 100) }) := by
  have ht : tick m iv s =
      updateAndBroadcastAll e.activeDrones
        { lastKnownLocation := some
            (interpolate (e.path.getD e.currentWaypointIndex ⟨0, 0⟩)
              (e.path.getD (e.currentWaypointIndex + 1) ⟨0, 0⟩)
              (e.progress + 5 / 100)),
          status := none, assignedMissionId := none }
        (s.setSim m (some { e with progress := e.progress + 5 / 100 })) := by
    simp only [tick, hs]
    rw [if_neg (not_le.mpr hlt), if_neg (not_le.mpr hp)]
  refine ⟨?_, ?_, ?_, ?_, ?_, ?_⟩
  · rw [ht, uab_sims, setSim_sims, if_pos rfl]
  · rw [ht, uab_missions, setSim_missions]
  · intro j h
    rw [ht]
    exact uab_drones_isSome _ _ _ _ (by rw [setSim_drones]; exact h)
  · rw [ht, uab_activeIntervals, setSim_activeIntervals]
  · rw [ht, uab_nextIntervalId, setSim_nextIntervalId]
  · intro j d hnd hj hdj
    rw [ht]
    have h1 := (uab_drones_mem e.activeDrones
      { lastKnownLocation := some
          (interpolate (e.path.getD e.currentWaypointIndex ⟨0, 0⟩)
            (e.path.getD (e.currentWaypointIndex + 1) ⟨0, 0⟩)
            (e.progress + 5 / 100)),
        status := none, assignedMissionId := none }
      (s.setSim m (some { e with progress := e.progress + 5 / 100 }))
      j d hnd hj (by rw [setSim_drones]; exact hdj)).1
    rw [h1]
    simp [applyDronePatch]

/-- The segment-boundary invocation: progress reaches 1, is reset, and the
index advances; whether or not the new index is the final one, the entry
survives with the advanced index and zero progress, and the missions
store, interval set and drone-record presence are untouched. -/
theorem tick_advance (m : ℕ) (iv : Option ℕ) (s : ServerState) (e : SimEntry)
    (hs : s.sims m = some e)
    (hlt : e.currentWaypointIndex < e.path.length - 1)
    (hp : 1 ≤ e.progress + 5 / 100) :
    (tick m iv s).sims m = some { e with
      currentWaypointIndex := e.currentWaypointIndex + 1, progress := 0 } ∧
    (tick m iv s).missions = s.missions ∧
    (∀ j, (s.drones j).isSome → ((tick m iv s).drones j).isSome) ∧
    (tick m iv s).activeIntervals = s.activeIntervals ∧
    (tick m iv s).nextIntervalId = s.nextIntervalId := by
  by_cases hend : e.path.length - 1 ≤ e.currentWaypointIndex + 1
  · have ht : tick m iv s = s.setSim m (some { e with
        currentWaypointIndex := e.currentWaypointIndex + 1,
        progress := 0 }) := by
      simp only [tick, hs]
      rw [if_neg (not_le.mpr hlt), if_pos hp, if_pos hend]
    refine ⟨?_, ?_, ?_, ?_, ?_⟩ <;> rw [ht]
    · rw [setSim_sims, if_pos rfl]
    · rfl
    · exact fun j h => h
    · rfl
    · rfl
  · have ht : tick m iv s =
        updateAndBroadcastAll e.activeDrones
          { lastKnownLocation := some
              (interpolate (e.path.getD (e.currentWaypointIndex + 1) ⟨0, 0⟩)
                (e.path.getD (e.currentWaypointIndex + 1 + 1) ⟨0, 0⟩)
                (0 : ℚ)),
            status := none, assignedMissionId := none }
          (s.setSim m (some { e with
            currentWaypointIndex := e.currentWaypointIndex + 1,
            progress := 0 })) := by
      simp only [tick, hs]
      rw [if_neg (not_le.mpr hlt), if_pos hp, if_neg hend]
    refine ⟨?_, ?_, ?_, ?_, ?_⟩ <;> rw [ht]
    · rw [uab_sims, setSim_sims, if_pos rfl]
    · rw [uab_missions, setSim_missions]
    · intro j h
      exact uab_drones_isSome _ _ _ _ (by rw [setSim_drones]; exact h)
    · rw [uab_activeIntervals, setSim_activeIntervals]
    · rw [uab_nextIntervalId, setSim_nextIntervalId]

/-! ## Running the driver across a segment and across the path -/

/-- An entry with the progress field rebuilt from its own value is itself. -/
theorem SimEntry.eta_progress (e : SimEntry) (q : ℚ) (h : e.progress = q) :
    { e with progress := q } = e := by
  cases e
  simp only at h
  rw [h]

/-- Twenty consecutive callback invocations traverse exactly one segment:
starting a segment at zero progress, the entry ends at the next index with
zero progress; the missions store and interval set are untouched and drone
records stay present. -/
theorem run_segment (m : ℕ) (iv : Option ℕ) (s : ServerState) (e : SimEntry)
    (hs : s.sims m = some e) (h0 : e.progress = 0)
    (hlt : e.currentWaypointIndex < e.path.length - 1) :
    ((tick m iv)^[20] s).sims m = some { e with
      currentWaypointIndex := e.currentWaypointIndex + 1, progress := 0 } ∧
    ((tick m iv)^[20] s).missions = s.missions ∧
    (∀ j, (s.drones j).isSome → (((tick m iv)^[20] s).drones j).isSome) ∧
    ((tick m iv)^[20] s).activeIntervals = s.activeIntervals := by
  have key : ∀ k : ℕ, k ≤ 19 →
      ((tick m iv)^[k] s).sims m = some { e with progress := (k : ℚ) / 20 } ∧
      ((tick m iv)^[k] s).missions = s.missions ∧
      (∀ j, (s.drones j).isSome → (((tick m iv)^[k] s).drones j).isSome) ∧
      ((tick m iv)^[k] s).activeIntervals = s.activeIntervals := by
    intro k
    induction k with
    | zero =>
        intro _
        refine ⟨?_, rfl, fun j h => h, rfl⟩
        rw [Function.iterate_zero_apply, hs, SimEntry.eta_progress e _ (by rw [h0]; norm_num)]
    | succ k ih =>
        intro hk19
        obtain ⟨hsim, hmis, hdr, hai⟩ := ih (by omega)
        have hk18 : (k : ℚ) ≤ 18 := by exact_mod_cast (by omega : k ≤ 18)
        have hplt : (k : ℚ) / 20 + 5 / 100 < 1 := by
          rw [div_add_div _ _ (by norm_num) (by norm_num)]
          rw [div_lt_one (by norm_num)]
          linarith
        obtain ⟨h1, h2, h3, h4, -, -⟩ :=
          tick_move m iv ((tick m iv)^[k] s) { e with progress := (k : ℚ) / 20 }
            hsim hlt hplt
        rw [Function.iterate_succ_apply']
        refine ⟨?_, ?_, ?_, ?_⟩
        · rw [h1]
          congr 1
          have : (k : ℚ) / 20 + 5 / 100 = ((k + 1 : ℕ) : ℚ) / 20 := by
            push_cast; ring
          simp only [this]
        · rw [h2, hmis]
        · intro j h
          exact h3 j (hdr j h)
        · rw [h4, hai]
  obtain ⟨hsim, hmis, hdr, hai⟩ := key 19 (by norm_num)
  have hp1 : (1 : ℚ) ≤ (19 : ℚ) / 20 + 5 / 100 := by norm_num
  obtain ⟨h1, h2, h3, h4, -⟩ :=
    tick_advance m iv ((tick m iv)^[19] s) { e with progress := (19 : ℚ) / 20 }
      (by exact_mod_cast hsim) hlt hp1
  rw [show (20 : ℕ) = 19 + 1 from rfl, Function.iterate_succ_apply']
  refine ⟨?_, ?_, ?_, ?_⟩
  · rw [h1]
  · rw [h2, hmis]
  · intro j h
    exact h3 j (hdr j h)
  · rw [h4, hai]

/-- Iterating the callback 20·n times from the start of the path advances
the entry to segment index n, for any n up to the final index. -/
theorem run_path (m : ℕ) (iv : Option ℕ) (s : ServerState) (e : SimEntry)
    (hs : s.sims m = some e) (h0 : e.progress = 0)
    (hi : e.currentWaypointIndex = 0) (n : ℕ)
    (hn : n ≤ e.path.length - 1) :
    ((tick m iv)^[20 * n] s).sims m =
      some { e with currentWaypointIndex := n, progress := 0 } ∧
    ((tick m iv)^[20 * n] s).missions = s.missions ∧
    (∀ j, (s.drones j).isSome → (((tick m iv)^[20 * n] s).drones j).isSome) ∧
    ((tick m iv)^[20 * n] s).activeIntervals = s.activeIntervals := by
  induction n with
  | zero =>
      refine ⟨?_, rfl, fun j h => h, rfl⟩
      rw [Nat.mul_zero, Function.iterate_zero_apply, hs]
      congr 1
      cases e
      simp only at h0 hi
      rw [h0, hi]
  | succ n ih =>
      obtain ⟨hsim, hmis, hdr, hai⟩ := ih (by omega)
      have hlt : n < e.path.length - 1 := by omega
      obtain ⟨h1, h2, h3, h4⟩ :=
        run_segment m iv ((tick m iv)^[20 * n] s)
          { e with currentWaypointIndex := n, progress := 0 }
          hsim rfl (by simpa using hlt)
      have hco : 20 * (n + 1) = 20 + 20 * n := by ring
      rw [hco, Function.iterate_add_apply]
      refine ⟨?_, ?_, ?_, ?_⟩
      · rw [h1]
      · rw [h2, hmis]
      · intro j h
        exact h3 j (hdr j h)
      · rw [h4, hai]

/-! ## Starting a simulation: fresh entry and merge -/

/-- Starting a simulation for a mission with no registry entry creates the
entry at segment 0 with zero progress, schedules a fresh interval, and
leaves the missions store untouched and the drone records present. -/
theorem start_fresh (m : ℕ) (drone : Drone) (wps : List Waypoint)
    (s : ServerState) (h2 : 2 ≤ wps.length) (hnone : s.sims m = none) :
    (startDroneSimulation m drone wps s).1 = .ok ∧
    ((startDroneSimulation m drone wps s).2).sims m = some
      { activeDrones := [drone.id], currentWaypointIndex := 0,
        path := wps.map (fun wp => (⟨wp.lat, wp.lng⟩ : LatLng)),
        intervalId := some s.nextIntervalId, progress := 0 } ∧
    ((startDroneSimulation m drone wps s).2).missions = s.missions ∧
    (∀ j, (s.drones j).isSome →
      (((startDroneSimulation m drone wps s).2).drones j).isSome) := by
  have hlt : ¬ wps.length < 2 := not_lt.mpr h2
  simp only [startDroneSimulation, if_neg hlt, broadcastIfPresent_sims,
    updateDrone_sims, hnone, setSim_sims, eq_self_iff_true, if_true,
    setSim_nextIntervalId, broadcastIfPresent_nextIntervalId,
    updateDrone_nextIntervalId]
  refine ⟨trivial, ?_, ?_, ?_⟩
  · simp [ServerState.setSim]
  · simp [ServerState.setSim, broadcastIfPresent_missions,
      updateDrone_missions]
  · intro j h
    simp only [ServerState.setSim, broadcastIfPresent_drones]
    rw [updateDrone_drones]
    split
    · next he =>
        cases hd : s.drones drone.id with
        | none => rw [he, hd] at h; exact absurd h (by simp)
        | some d => simp [hd]
    · exact h

/-- Starting a simulation for a mission that already has a registry entry
with a running interval merges the drone id into the entry, keeps the
path, segment index and progress, and starts no second interval. -/
theorem start_merge (m : ℕ) (drone : Drone) (wps : List Waypoint)
    (s : ServerState) (e : SimEntry) (iv : ℕ)
    (h2 : 2 ≤ wps.length) (hsome : s.sims m = some e)
    (hiv : e.intervalId = some iv) :
    (startDroneSimulation m drone wps s).1 = .ok ∧
    ((startDroneSimulation m drone wps s).2).sims m = some { e with
      activeDrones := if drone.id ∈ e.activeDrones then e.activeDrones
        else e.activeDrones ++ [drone.id] } ∧
    ((startDroneSimulation m drone wps s).2).activeIntervals =
      s.activeIntervals ∧
    ((startDroneSimulation m drone wps s).2).nextIntervalId =
      s.nextIntervalId ∧
    ((startDroneSimulation m drone wps s).2).missions = s.missions := by
  have hlt : ¬ wps.length < 2 := not_lt.mpr h2
  by_cases hmem : drone.id ∈ e.activeDrones
  · simp only [startDroneSimulation, if_neg hlt, broadcastIfPresent_sims,
      updateDrone_sims, hsome, if_pos hmem, hiv]
    refine ⟨trivial, ?_, ?_, ?_, ?_⟩
    · cases e
      simp only at hiv
      rw [hiv]
    · rw [broadcastIfPresent_activeIntervals, updateDrone_activeIntervals]
    · rw [broadcastIfPresent_nextIntervalId, updateDrone_nextIntervalId]
    · rw [broadcastIfPresent_missions, updateDrone_missions]
  · simp only [startDroneSimulation, if_neg hlt, broadcastIfPresent_sims,
      updateDrone_sims, hsome, if_neg hmem, setSim_sims, eq_self_iff_true,
      if_true, hiv]
    refine ⟨trivial, ?_, ?_, ?_, ?_⟩
    · simp [ServerState.setSim, if_neg hmem]
    · rw [setSim_activeIntervals, broadcastIfPresent_activeIntervals,
        updateDrone_activeIntervals]
    · rw [setSim_nextIntervalId, broadcastIfPresent_nextIntervalId,
        updateDrone_nextIntervalId]
    · rw [setSim_missions, broadcastIfPresent_missions,
        updateDrone_missions]

/-! ## Further shared helpers -/

/-- `getD` at the final index is the last element. -/
theorem getD_last_eq_getLast {α : Type} (l : List α) (d : α) (h : l ≠ []) :
    l.getD (l.length - 1) d = l.getLast h := by
  induction l with
  | nil => exact absurd rfl h
  | cons x xs ih =>
      cases xs with
      | nil => rfl
      | cons y ys =>
          rw [List.getLast_cons (by simp)]
          rw [← ih (by simp)]
          simp [List.getD_cons_succ]

/-- Whatever branch `startDroneSimulation` takes after the length check,
the drone store and the broadcast log of the result are those produced by
the initial write-and-broadcast of the started drone. -/
theorem start_drones_broadcasts (m : ℕ) (drone : Drone)
    (wps : List Waypoint) (s : ServerState) (h2 : 2 ≤ wps.length) :
    ((startDroneSimulation m drone wps s).2).drones =
      ((s.updateDrone drone.id
        { lastKnownLocation := some
            ((wps.map (fun wp => (⟨wp.lat, wp.lng⟩ : LatLng))).getD 0 ⟨0, 0⟩),
          status := some "in-mission",
          assignedMissionId := some (some m) }).broadcastIfPresent
        drone.id).drones ∧
    ((startDroneSimulation m drone wps s).2).broadcasts =
      ((s.updateDrone drone.id
        { lastKnownLocation := some
            ((wps.map (fun wp => (⟨wp.lat, wp.lng⟩ : LatLng))).getD 0 ⟨0, 0⟩),
          status := some "in-mission",
          assignedMissionId := some (some m) }).broadcastIfPresent
        drone.id).broadcasts := by
  simp only [startDroneSimulation, if_neg (not_lt.mpr h2)]
  constructor <;> (repeat' split) <;> rfl

/-! ## Claim theorems -/

/-- C4: a simulation start whose waypoint list has fewer than 2 entries is
rejected with the insufficient-waypoints outcome and performs no state
change whatsoever (the state is returned untouched, so no drone or mission
write, no registry entry, and the mission status — e.g. planned — is
unchanged); likewise the start-mission-simulation request handler leaves
the state untouched when the effective waypoint list it resolves is too
short. -/
theorem insufficient_waypoints_rejected (missionId droneId : ℕ)
    (drone : Drone) (wps : List Waypoint) (s : ServerState)
    (hw : wps.length < 2)
    (he : (effectiveWaypoints s missionId).length < 2) :
    startDroneSimulation missionId drone wps s =
      (.insufficientWaypoints, s) ∧
    handleStartMissionSimulation missionId droneId s = s := by
  constructor
  · unfold startDroneSimulation
    rw [if_pos hw]
  · unfold handleStartMissionSimulation
    cases hm : s.missions missionId with
    | none => rfl
    | some mi =>
        cases hd : s.drones droneId with
        | none => rfl
        | some d =>
            simp only
            unfold startDroneSimulation
            rw [if_pos he]

/-- C4 witness: on a concrete state with no assignments, starting with an
empty waypoint list is rejected and the handler is a no-op. -/
theorem insufficient_waypoints_rejected_witness :
    startDroneSimulation 1 exDrone [] exState =
      (.insufficientWaypoints, exState) ∧
    handleStartMissionSimulation 1 1 exState = exState :=
  insufficient_waypoints_rejected 1 1 exDrone [] exState (by decide)
    (by decide)

/-- Uniqueness of the base-2 integer logarithm from its bracketing
powers. -/
theorem int_log_eq_of (r : ℚ) (z : ℤ) (hr : 0 < r)
    (h1 : ((2 : ℕ) : ℚ) ^ z ≤ r) (h2 : r < ((2 : ℕ) : ℚ) ^ (z + 1)) :
    Int.log 2 r = z := by
  have ha : z ≤ Int.log 2 r := (Int.zpow_le_iff_le_log one_lt_two hr).mp h1
  have hb : Int.log 2 r < z + 1 := (Int.lt_zpow_iff_log_lt one_lt_two hr).mp h2
  omega

/-- Evaluating `roundB64` in the round-down case: when the scaled value
sits strictly below the midpoint, the result is the floor multiple of the
ulp. -/
theorem roundB64_eq_down (q : ℚ) (z lo : ℤ)
    (hq : q ≠ 0)
    (hlog : Int.log 2 |q| = z)
    (hfl : ⌊q / 2 ^ (z - 52)⌋ = lo)
    (hlt : q / 2 ^ (z - 52) - (lo : ℚ) < 1 / 2) :
    roundB64 q = (lo : ℚ) * 2 ^ (z - 52) := by
  simp only [roundB64, if_neg hq, hlog, hfl]
  rw [if_pos hlt]

/-- C5 (counterexample): in the IEEE binary64 arithmetic the program uses,
`interpolate(a, b, 1)` is NOT exactly `b` for every pair of waypoints: for
`a.lat = 1` and `b.lat = 2 ^ (-60)` (both exactly representable doubles),
`b.lat - a.lat` rounds to `-1`, so the computed latitude is `0`, not
`b.lat`. -/
theorem interpolate_fraction_one_rounds_away :
    flInterpolate ⟨1, 0⟩ ⟨1 / 2 ^ 60, 0⟩ 1 = ⟨0, 0⟩ ∧
    flInterpolate ⟨1, 0⟩ ⟨1 / 2 ^ 60, 0⟩ 1 ≠ ⟨1 / 2 ^ 60, 0⟩ := by
  have hz : roundB64 0 = 0 := by simp [roundB64]
  have hlogA : Int.log 2 |(1 / 2 ^ 60 - 1 : ℚ)| = -1 := by
    have habs : |(1 / 2 ^ 60 - 1 : ℚ)| = 1 - 1 / 2 ^ 60 := by
      rw [abs_of_neg (by norm_num)]
      ring
    rw [habs]
    refine int_log_eq_of _ _ (by norm_num) ?_ ?_
    · push_cast
      rw [show ((-1 : ℤ)) = -(1 : ℤ) from rfl, zpow_neg, zpow_one]
      norm_num
    · push_cast
      norm_num
  have hflA : ⌊(1 / 2 ^ 60 - 1 : ℚ) / 2 ^ ((-1 : ℤ) - 52)⌋ = -(2 ^ 53) := by
    rw [Int.floor_eq_iff]
    constructor
    · push_cast
      norm_num [zpow_neg]
    · push_cast
      norm_num [zpow_neg]
  have hltA : (1 / 2 ^ 60 - 1 : ℚ) / 2 ^ ((-1 : ℤ) - 52) -
      ((-(2 ^ 53) : ℤ) : ℚ) < 1 / 2 := by
    push_cast
    norm_num [zpow_neg]
  have hsub : flSub (1 / 2 ^ 60 : ℚ) 1 = -1 := by
    show roundB64 (1 / 2 ^ 60 - 1 : ℚ) = -1
    rw [roundB64_eq_down (1 / 2 ^ 60 - 1 : ℚ) (-1) (-(2 ^ 53)) (by norm_num)
      hlogA hflA hltA]
    push_cast
    norm_num [zpow_neg]
  have hlogB : Int.log 2 |(-1 : ℚ)| = 0 := by
    rw [abs_of_neg (by norm_num), neg_neg, Int.log_one_right]
  have hflB : ⌊(-1 : ℚ) / 2 ^ ((0 : ℤ) - 52)⌋ = -(2 ^ 52) := by
    rw [Int.floor_eq_iff]
    constructor
    · push_cast
      norm_num [zpow_neg]
    · push_cast
      norm_num [zpow_neg]
  have hltB : (-1 : ℚ) / 2 ^ ((0 : ℤ) - 52) - ((-(2 ^ 52) : ℤ) : ℚ) <
      1 / 2 := by
    push_cast
    norm_num [zpow_neg]
  have hmul : flMul (-1 : ℚ) 1 = -1 := by
    show roundB64 ((-1 : ℚ) * 1) = -1
    rw [show ((-1 : ℚ) * 1) = -1 by ring]
    rw [roundB64_eq_down (-1 : ℚ) 0 (-(2 ^ 52)) (by norm_num) hlogB hflB
      hltB]
    push_cast
    norm_num [zpow_neg]
  have hadd : flAdd (1 : ℚ) (-1) = 0 := by
    show roundB64 ((1 : ℚ) + -1) = 0
    rw [show ((1 : ℚ) + -1) = 0 by ring, hz]
  have hlat : flAdd (1 : ℚ) (flMul (flSub (1 / 2 ^ 60) 1) 1) = 0 := by
    rw [hsub, hmul, hadd]
  have hlng : flAdd (0 : ℚ) (flMul (flSub 0 0) 1) = 0 := by
    have h1 : flSub (0 : ℚ) 0 = 0 := by
      show roundB64 ((0 : ℚ) - 0) = 0
      rw [show ((0 : ℚ) - 0) = 0 by ring, hz]
    have h2 : flMul (0 : ℚ) 1 = 0 := by
      show roundB64 ((0 : ℚ) * 1) = 0
      rw [show ((0 : ℚ) * 1) = 0 by ring, hz]
    have h3 : flAdd (0 : ℚ) 0 = 0 := by
      show roundB64 ((0 : ℚ) + 0) = 0
      rw [show ((0 : ℚ) + 0) = 0 by ring, hz]
    rw [h1, h2, h3]
  have hmain : flInterpolate ⟨1, 0⟩ ⟨1 / 2 ^ 60, 0⟩ 1 = ⟨0, 0⟩ := by
    show (⟨flAdd 1 (flMul (flSub (1 / 2 ^ 60) 1) 1),
      flAdd 0 (flMul (flSub 0 0) 1)⟩ : LatLng) = ⟨0, 0⟩
    rw [hlat, hlng]
  refine ⟨hmain, ?_⟩
  rw [hmain]
  intro h
  have hcomp : (0 : ℚ) = 1 / 2 ^ 60 := congrArg LatLng.lat h
  norm_num at hcomp

/-- C5 (amended): the endpoint identities of the driver segment
interpolation `from + (to - from) * fraction` hold exactly in exact
(rational/real) arithmetic — fraction 0 returns the start point and
fraction 1 the end point; under the IEEE double rounding the program
computes with, the fraction-1 identity can fail
(see the counterexample above). -/
theorem interpolate_endpoints_exact (a b : LatLng) :
    interpolate a b 0 = a ∧ interpolate a b 1 = b := by
  constructor
  · cases a
    simp [interpolate]
  · cases a
    cases b
    simp [interpolate]

/-- C8 (spec-modelled): stopping a mission with no active simulation is a
no-op returning the state untouched (registry, drones, missions all
unchanged, and, being a total function, nothing is raised); stopping a
mission with an entry removes the entry, cancels its scheduled interval,
and touches no drone or mission record. -/
theorem stop_simulation_contract (m : ℕ) (s : ServerState) :
    (s.sims m = none → stopSimulation m s = s) ∧
    (∀ e, s.sims m = some e →
      (stopSimulation m s).sims m = none ∧
      (∀ iv, e.intervalId = some iv →
        (stopSimulation m s).activeIntervals = s.activeIntervals.erase iv) ∧
      (stopSimulation m s).drones = s.drones ∧
      (stopSimulation m s).missions = s.missions ∧
      (stopSimulation m s).broadcasts = s.broadcasts) := by
  constructor
  · intro h
    unfold stopSimulation
    rw [h]
  · intro e he
    unfold stopSimulation
    rw [he]
    refine ⟨?_, ?_, ?_, ?_, ?_⟩
    · rw [setSim_sims, if_pos rfl]
    · intro iv hiv
      rw [setSim_activeIntervals, hiv]
      rfl
    · rw [setSim_drones, clearTick_drones]
    · rw [setSim_missions, clearTick_missions]
    · rw [setSim_broadcasts, clearTick_broadcasts]

/-- C8 witness: stopping mission 5 on a state with no simulations returns
the state unchanged, and stopping mission 1 on a state with an active
entry removes that entry. -/
theorem stop_simulation_contract_witness :
    stopSimulation 5 emptyState = emptyState ∧
    (stopSimulation 1 exEndState).sims 1 = none :=
  ⟨(stop_simulation_contract 5 emptyState).1 rfl,
   ((stop_simulation_contract 1 exEndState).2 exEntryEnd rfl).1⟩

/-- C9 (counterexample): a manual drone-location-update for a drone id
with no record does nothing at all — the state is returned untouched and
the complete client-visible output (the broadcast log delta) is empty, so
in particular no DroneNotFound answer of any kind is produced, contrary to
the claim. -/
theorem manual_update_unknown_drone_silent :
    handleDroneLocationUpdate 7 ⟨1, 2⟩ emptyState = emptyState ∧
    (handleDroneLocationUpdate 7 ⟨1, 2⟩ emptyState).broadcasts = [] :=
  ⟨rfl, rfl⟩

/-- C9 (amended): a manual drone-location-update for an existing drone
writes exactly the location through the store and publishes the updated
record — the same write-then-publish pair the driver uses — changing no
other drone field, no other record and no registry state; for a
non-existent drone the request is silently ignored: nothing is mutated,
nothing is published, and no reply is sent. -/
theorem manual_update_behavior (droneId : ℕ) (loc : LatLng)
    (s : ServerState) :
    (∀ d, s.drones droneId = some d →
      (handleDroneLocationUpdate droneId loc s).drones droneId =
        some { d with lastKnownLocation := loc } ∧
      (∀ i, i ≠ droneId →
        (handleDroneLocationUpdate droneId loc s).drones i = s.drones i) ∧
      (handleDroneLocationUpdate droneId loc s).broadcasts =
        s.broadcasts ++ [{ d with lastKnownLocation := loc }] ∧
      (handleDroneLocationUpdate droneId loc s).missions = s.missions ∧
      (handleDroneLocationUpdate droneId loc s).sims = s.sims) ∧
    (s.drones droneId = none → handleDroneLocationUpdate droneId loc s = s)
    := by
  constructor
  · intro d hd
    have happ : applyDronePatch d
        { lastKnownLocation := some loc, status := none,
          assignedMissionId := none } = { d with lastKnownLocation := loc } := by
      simp [applyDronePatch]
    have hupd : (s.updateDrone droneId
        { lastKnownLocation := some loc, status := none,
          assignedMissionId := none }).drones droneId =
        some { d with lastKnownLocation := loc } := by
      rw [updateDrone_drones, if_pos rfl, hd]
      simp [happ]
    have ht : handleDroneLocationUpdate droneId loc s =
        ((s.updateDrone droneId
          { lastKnownLocation := some loc, status := none,
            assignedMissionId := none }).broadcastIfPresent droneId) := by
      unfold handleDroneLocationUpdate
      rw [hd]
    refine ⟨?_, ?_, ?_, ?_, ?_⟩
    · rw [ht, broadcastIfPresent_drones, hupd]
    · intro i hi
      rw [ht, broadcastIfPresent_drones, updateDrone_drones, if_neg hi]
    · rw [ht, broadcastIfPresent_broadcasts_of_some _ _ _ hupd,
        updateDrone_broadcasts]
    · rw [ht, broadcastIfPresent_missions, updateDrone_missions]
    · rw [ht, broadcastIfPresent_sims, updateDrone_sims]
  · intro h
    unfold handleDroneLocationUpdate
    rw [h]

/-- C9 witness: the amended behaviour evaluated on concrete states — an
existing drone gets exactly its location replaced and broadcast, a missing
drone id leaves the state untouched. -/
theorem manual_update_behavior_witness :
    (handleDroneLocationUpdate 1 ⟨3, 4⟩ exState).drones 1 =
      some { exDrone with lastKnownLocation := ⟨3, 4⟩ } ∧
    handleDroneLocationUpdate 9 ⟨3, 4⟩ emptyState = emptyState :=
  ⟨((manual_update_behavior 1 ⟨3, 4⟩ exState).1 exDrone rfl).1,
   (manual_update_behavior 9 ⟨3, 4⟩ emptyState).2 rfl⟩

/-- C10: every successful simulation start — including a late-joining
drone merging into a running simulation, since no hypothesis about the
registry is needed — first writes the started drone to the first waypoint
of the waypoint list passed to the call, with status in-mission and the
mission id assigned, and broadcasts exactly that record; so a drone
joining mid-flight is placed at the start of the path, not at the
current simulated position. -/
theorem start_initializes_drone_at_path_start (missionId : ℕ)
    (drone : Drone) (wps : List Waypoint) (s : ServerState) (d : Drone)
    (h2 : 2 ≤ wps.length) (hd : s.drones drone.id = some d) :
    ((startDroneSimulation missionId drone wps s).2).drones drone.id =
      some { d with
        lastKnownLocation :=
          (wps.map (fun wp => (⟨wp.lat, wp.lng⟩ : LatLng))).getD 0 ⟨0, 0⟩,
        status := "in-mission",
        assignedMissionId := some missionId } ∧
    ((startDroneSimulation missionId drone wps s).2).broadcasts =
      s.broadcasts ++ [{ d with
        lastKnownLocation :=
          (wps.map (fun wp => (⟨wp.lat, wp.lng⟩ : LatLng))).getD 0 ⟨0, 0⟩,
        status := "in-mission",
        assignedMissionId := some missionId }] := by
  obtain ⟨hdr, hbr⟩ := start_drones_broadcasts missionId drone wps s h2
  have happ : applyDronePatch d
      { lastKnownLocation := some
          ((wps.map (fun wp => (⟨wp.lat, wp.lng⟩ : LatLng))).getD 0 ⟨0, 0⟩),
        status := some "in-mission",
        assignedMissionId := some (some missionId) } =
      { d with
        lastKnownLocation :=
          (wps.map (fun wp => (⟨wp.lat, wp.lng⟩ : LatLng))).getD 0 ⟨0, 0⟩,
        status := "in-mission",
        assignedMissionId := some missionId } := by
    simp [applyDronePatch]
  have hupd : (s.updateDrone drone.id
      { lastKnownLocation := some
          ((wps.map (fun wp => (⟨wp.lat, wp.lng⟩ : LatLng))).getD 0 ⟨0, 0⟩),
        status := some "in-mission",
        assignedMissionId := some (some missionId) }).drones drone.id =
      some (applyDronePatch d
      { lastKnownLocation := some
          ((wps.map (fun wp => (⟨wp.lat, wp.lng⟩ : LatLng))).getD 0 ⟨0, 0⟩),
        status := some "in-mission",
        assignedMissionId := some (some missionId) }) := by
    rw [updateDrone_drones, if_pos rfl, hd]
    rfl
  constructor
  · rw [hdr, broadcastIfPresent_drones, hupd, happ]
  · rw [hbr, broadcastIfPresent_broadcasts_of_some _ _ _ hupd,
      updateDrone_broadcasts, happ]

/-- C10 witness: starting the sample mission places the sample drone at
waypoint (0,0) with status in-mission and broadcasts that record. -/
theorem start_initializes_drone_at_path_start_witness :
    ((startDroneSimulation 1 exDrone exWaypoints exState).2).drones 1 =
      some { exDrone with
              lastKnownLocation := ⟨0, 0⟩
              status := "in-mission"
              assignedMissionId := some 1 } ∧
    ((startDroneSimulation 1 exDrone exWaypoints exState).2).broadcasts =
      [{ exDrone with
          lastKnownLocation := ⟨0, 0⟩
          status := "in-mission"
          assignedMissionId := some 1 }] :=
  start_initializes_drone_at_path_start 1 exDrone exWaypoints exState
    exDrone (by decide) rfl

/-- C3: starting a simulation for a mission that already has a registry
entry (with its interval running) merges instead of replacing: the
resulting entry keeps the existing path, segment index and progress and
its drone set becomes the union of the old set and the new drone id; no
second interval is scheduled; and on a subsequent mid-segment tick every
member of the merged set has its location advanced to the interpolated
position. -/
theorem start_merges_existing_simulation (m : ℕ) (drone : Drone)
    (wps : List Waypoint) (s : ServerState) (e : SimEntry) (iv : ℕ)
    (h2 : 2 ≤ wps.length) (hsome : s.sims m = some e)
    (hiv : e.intervalId = some iv) :
    ((startDroneSimulation m drone wps s).2).sims m = some { e with
      activeDrones := if drone.id ∈ e.activeDrones then e.activeDrones
        else e.activeDrones ++ [drone.id] } ∧
    (∀ x, (x ∈ (if drone.id ∈ e.activeDrones then e.activeDrones
        else e.activeDrones ++ [drone.id])) ↔
      (x ∈ e.activeDrones ∨ x = drone.id)) ∧
    ((startDroneSimulation m drone wps s).2).activeIntervals =
      s.activeIntervals ∧
    ((startDroneSimulation m drone wps s).2).nextIntervalId =
      s.nextIntervalId ∧
    (∀ (iv' : Option ℕ) (j : ℕ) (d : Drone),
      (if drone.id ∈ e.activeDrones then e.activeDrones
        else e.activeDrones ++ [drone.id]).Nodup →
      j ∈ (if drone.id ∈ e.activeDrones then e.activeDrones
        else e.activeDrones ++ [drone.id]) →
      ((startDroneSimulation m drone wps s).2).drones j = some d →
      e.currentWaypointIndex < e.path.length - 1 →
      e.progress + 5 / 100 < 1 →
      (tick m iv' ((startDroneSimulation m drone wps s).2)).drones j =
        some { d with lastKnownLocation := interpolate (e.path.getD e.currentWaypointIndex ⟨0, 0⟩) (e.path.getD (e.currentWaypointIndex + 1) ⟨0, 0⟩) (e.progress + 5 / 100) }) := by
  obtain ⟨-, hsim, hai, hni, -⟩ :=
    start_merge m drone wps s e iv h2 hsome hiv
  refine ⟨hsim, ?_, hai, hni, ?_⟩
  · intro x
    by_cases hmem : drone.id ∈ e.activeDrones
    · rw [if_pos hmem]
      constructor
      · intro h
        exact Or.inl h
      · intro h
        rcases h with h | h
        · exact h
        · rw [h]
          exact hmem
    · rw [if_neg hmem]
      simp [List.mem_append]
  · intro iv' j d hnd hj hdj hlt hp
    have := (tick_move m iv' ((startDroneSimulation m drone wps s).2)
      { e with activeDrones := if drone.id ∈ e.activeDrones
          then e.activeDrones else e.activeDrones ++ [drone.id] }
      hsim hlt hp).2.2.2.2.2 j d hnd hj hdj
    exact this

/-- C3 witness: merging a second drone into the running sample simulation
keeps the entry and schedules nothing new. -/
theorem start_merges_existing_simulation_witness :
    ((startDroneSimulation 1 exDrone exWaypoints exMidState).2).sims 1 =
      some { exEntryMid with
        activeDrones := if (1 : ℕ) ∈ exEntryMid.activeDrones
          then exEntryMid.activeDrones
          else exEntryMid.activeDrones ++ [1] } ∧
    ((startDroneSimulation 1 exDrone exWaypoints exMidState).2).activeIntervals = exMidState.activeIntervals :=
  ⟨(start_merges_existing_simulation 1 exDrone exWaypoints exMidState
      exEntryMid 0 (by decide) rfl rfl).1,
   (start_merges_existing_simulation 1 exDrone exWaypoints exMidState
      exEntryMid 0 (by decide) rfl rfl).2.2.1⟩

/-- C2: whenever a tick finds the segment index at or past the final
waypoint, the Completed transition runs: every drone in the entry's active
set is written to the last waypoint of the path with status available and
no assigned mission, the mission record is set to completed, the registry
entry is removed, and one drone-update event is published per drone. -/
theorem tick_completed_transition (m : ℕ) (iv : Option ℕ) (s : ServerState)
    (e : SimEntry) (mi : Mission)
    (hs : s.sims m = some e)
    (hend : e.path.length - 1 ≤ e.currentWaypointIndex)
    (hne : e.path ≠ [])
    (hm : s.missions m = some mi)
    (hnd : e.activeDrones.Nodup)
    (hd : ∀ j, j ∈ e.activeDrones → (s.drones j).isSome) :
    (∀ j, j ∈ e.activeDrones → ∃ d', (tick m iv s).drones j = some d' ∧
      d'.lastKnownLocation = e.path.getLast hne ∧
      d'.status = "available" ∧ d'.assignedMissionId = none) ∧
    (tick m iv s).missions m = some { mi with status := "completed" } ∧
    (tick m iv s).sims m = none ∧
    (∃ evs, (tick m iv s).broadcasts = s.broadcasts ++ evs ∧
      ∀ j, j ∈ e.activeDrones →
        ∃ d', (tick m iv s).drones j = some d' ∧ d' ∈ evs) := by
  obtain ⟨h1, h2, h3, h4⟩ := tick_complete m iv s e mi hs hend hm hnd hd
  refine ⟨?_, h2, h3, h4⟩
  intro j hj
  obtain ⟨d', hd', hloc, hst, hamid⟩ := h1 j hj
  refine ⟨d', hd', ?_, hst, hamid⟩
  rw [← getD_last_eq_getLast e.path ⟨0, 0⟩ hne]
  exact hloc

/-- C2 witness: the completion tick on the concrete end-of-path state
marks the mission completed and clears the registry. -/
theorem tick_completed_transition_witness :
    (tick 1 (some 0) exEndState).missions 1 =
      some { exMission with status := "completed" } ∧
    (tick 1 (some 0) exEndState).sims 1 = none := by
  have h := tick_completed_transition 1 (some 0) exEndState exEntryEnd
    exMission rfl (by decide) (by decide) rfl (by decide)
    (by intro j hj
        have hj1 : j = 1 := by simpa [exEntryEnd] using hj
        rw [hj1]
        rfl)
  exact ⟨h.2.1, h.2.2.1⟩

/-- C1 (amended): for a freshly started simulation on a path of N ≥ 2
waypoints, the mission completes after exactly 20*(N-1)+1 ticks — one more
than the 20*(N-1) the claim states: the tick that advances the segment
index onto the final waypoint returns early, and only the next tick runs
the completion, after which the mission status is completed, every
participating drone sits at the last waypoint with status available and no
assigned mission, and the registry entry is gone. -/
theorem mission_completion_tick_count (m : ℕ) (drone : Drone)
    (wps : List Waypoint) (s : ServerState) (iv : Option ℕ) (d0 : Drone)
    (mi : Mission)
    (h2 : 2 ≤ wps.length)
    (hnone : s.sims m = none)
    (hd : s.drones drone.id = some d0)
    (hm : s.missions m = some mi) :
    ((runTicks (20 * (wps.length - 1) + 1) m iv
        ((startDroneSimulation m drone wps s).2)).missions m).map
      Mission.status = some "completed" ∧
    (∃ d', (runTicks (20 * (wps.length - 1) + 1) m iv
        ((startDroneSimulation m drone wps s).2)).drones drone.id =
          some d' ∧
      d'.lastKnownLocation =
        (wps.map (fun wp => (⟨wp.lat, wp.lng⟩ : LatLng))).getD
          (wps.length - 1) ⟨0, 0⟩ ∧
      d'.status = "available" ∧ d'.assignedMissionId = none) ∧
    (runTicks (20 * (wps.length - 1) + 1) m iv
        ((startDroneSimulation m drone wps s).2)).sims m = none := by
  obtain ⟨-, hsim1, hmis1, hdr1⟩ := start_fresh m drone wps s h2 hnone
  set path : List LatLng := wps.map (fun wp => (⟨wp.lat, wp.lng⟩ : LatLng))
    with hpath
  set s1 := (startDroneSimulation m drone wps s).2 with hs1
  set e1 : SimEntry :=
    { activeDrones := [drone.id], currentWaypointIndex := 0, path := path,
      intervalId := some s.nextIntervalId, progress := 0 } with he1
  have hlen : path.length = wps.length := by
    rw [hpath, List.length_map]
  obtain ⟨hsim2, hmis2, hdr2, -⟩ :=
    run_path m iv s1 e1 hsim1 rfl rfl (path.length - 1) (Nat.le_refl _)
  have hmmid : ((tick m iv)^[20 * (path.length - 1)] s1).missions m =
      some mi := by
    rw [hmis2, hmis1, hm]
  have hdmid : ∀ j, j ∈ (({ e1 with
      currentWaypointIndex := path.length - 1,
      progress := 0 } : SimEntry)).activeDrones →
      ((((tick m iv)^[20 * (path.length - 1)] s1)).drones j).isSome := by
    intro j hj
    have hj1 : j = drone.id := by simpa [he1] using hj
    rw [hj1]
    exact hdr2 _ (hdr1 _ (by rw [hd]; rfl))
  obtain ⟨hA, hB, hC, -⟩ :=
    tick_complete m iv ((tick m iv)^[20 * (path.length - 1)] s1)
      { e1 with currentWaypointIndex := path.length - 1, progress := 0 }
      mi hsim2 (Nat.le_refl _) hmmid (List.nodup_singleton _) hdmid
  have hrun : runTicks (20 * (wps.length - 1) + 1) m iv s1 =
      tick m iv ((tick m iv)^[20 * (path.length - 1)] s1) := by
    rw [runTicks, hlen, Function.iterate_succ_apply']
  refine ⟨?_, ?_, ?_⟩
  · rw [hrun, hB]
    rfl
  · obtain ⟨d', hd', hloc, hst, hamid⟩ :=
      hA drone.id (by simp [he1])
    refine ⟨d', ?_, ?_, hst, hamid⟩
    · rw [hrun]
      exact hd'
    · rw [← hlen]
      exact hloc
  · rw [hrun]
    exact hC

/-- C1 witness: the amended tick count evaluated on the concrete spec
scenario — after 20*(2-1)+1 = 21 ticks mission 1 is completed, drone 1
sits at the last waypoint available and unassigned, and the registry entry
is gone. -/
theorem mission_completion_tick_count_witness :
    ((runTicks (20 * (exWaypoints.length - 1) + 1) 1 (some 0)
        ((startDroneSimulation 1 exDrone exWaypoints exState).2)).missions
      1).map Mission.status = some "completed" ∧
    (∃ d', (runTicks (20 * (exWaypoints.length - 1) + 1) 1 (some 0)
        ((startDroneSimulation 1 exDrone exWaypoints exState).2)).drones 1 =
          some d' ∧
      d'.lastKnownLocation =
        (exWaypoints.map (fun wp => (⟨wp.lat, wp.lng⟩ : LatLng))).getD
          (exWaypoints.length - 1) ⟨0, 0⟩ ∧
      d'.status = "available" ∧ d'.assignedMissionId = none) ∧
    (runTicks (20 * (exWaypoints.length - 1) + 1) 1 (some 0)
        ((startDroneSimulation 1 exDrone exWaypoints exState).2)).sims 1 =
      none :=
  mission_completion_tick_count 1 exDrone exWaypoints exState (some 0)
    exDrone exMission (by decide) rfl rfl rfl

/-- C1 (counterexample): on the spec scenario itself (two waypoints, one
drone) the mission is NOT completed after exactly 20*(N-1) = 20 ticks: its
status is still in-progress and the registry entry is still alive — the
20th tick only advanced the segment index and returned early; the
completion runs on tick 21. -/
theorem mission_not_completed_at_twenty_ticks :
    ((runTicks (20 * (exWaypoints.length - 1)) 1 (some 0)
        ((startDroneSimulation 1 exDrone exWaypoints exState).2)).missions
      1).map Mission.status = some "in-progress" ∧
    some "in-progress" ≠ some "completed" ∧
    (runTicks (20 * (exWaypoints.length - 1)) 1 (some 0)
        ((startDroneSimulation 1 exDrone exWaypoints exState).2)).sims 1 ≠
      none := by
  obtain ⟨-, hsim1, hmis1, -⟩ :=
    start_fresh 1 exDrone exWaypoints exState (by decide) rfl
  obtain ⟨hsim2, hmis2, -, -⟩ :=
    run_path 1 (some 0) ((startDroneSimulation 1 exDrone exWaypoints
      exState).2) _ hsim1 rfl rfl 1 (by decide)
  refine ⟨?_, by decide, ?_⟩
  · show (((tick 1 (some 0))^[20 * 1]
        ((startDroneSimulation 1 exDrone exWaypoints exState).2)).missions
      1).map Mission.status = some "in-progress"
    rw [hmis2, hmis1]
    rfl
  · show ((tick 1 (some 0))^[20 * 1]
        ((startDroneSimulation 1 exDrone exWaypoints exState).2)).sims 1 ≠
      none
    rw [hsim2]
    simp

/-- C6: the haversine distance returns 0 on identical points and is
symmetric in its two points (exact real-number semantics). -/
theorem calculateDistance_self_and_symm :
    (∀ lat lon : ℝ, calculateDistance lat lon lat lon = 0) ∧
    (∀ lat1 lon1 lat2 lon2 : ℝ,
      calculateDistance lat1 lon1 lat2 lon2 =
        calculateDistance lat2 lon2 lat1 lon1) := by
  constructor
  · intro lat lon
    have ha : Real.sin ((lat - lat) * Real.pi / 180 / 2) = 0 := by
      rw [show (lat - lat) * Real.pi / 180 / 2 = 0 by ring, Real.sin_zero]
    have hb : Real.sin ((lon - lon) * Real.pi / 180 / 2) = 0 := by
      rw [show (lon - lon) * Real.pi / 180 / 2 = 0 by ring, Real.sin_zero]
    simp only [calculateDistance, ha, hb]
    norm_num [atan2, Real.arctan_zero, Real.sqrt_zero, Real.sqrt_one]
  · intro lat1 lon1 lat2 lon2
    have hlat : Real.sin ((lat1 - lat2) * Real.pi / 180 / 2) =
        -Real.sin ((lat2 - lat1) * Real.pi / 180 / 2) := by
      rw [show (lat1 - lat2) * Real.pi / 180 / 2 =
        -((lat2 - lat1) * Real.pi / 180 / 2) by ring, Real.sin_neg]
    have hlon : Real.sin ((lon1 - lon2) * Real.pi / 180 / 2) =
        -Real.sin ((lon2 - lon1) * Real.pi / 180 / 2) := by
      rw [show (lon1 - lon2) * Real.pi / 180 / 2 =
        -((lon2 - lon1) * Real.pi / 180 / 2) by ring, Real.sin_neg]
    have hA : Real.sin ((lat1 - lat2) * Real.pi / 180 / 2) *
        Real.sin ((lat1 - lat2) * Real.pi / 180 / 2) +
        Real.cos (lat2 * Real.pi / 180) * Real.cos (lat1 * Real.pi / 180) *
        Real.sin ((lon1 - lon2) * Real.pi / 180 / 2) *
        Real.sin ((lon1 - lon2) * Real.pi / 180 / 2) =
        Real.sin ((lat2 - lat1) * Real.pi / 180 / 2) *
        Real.sin ((lat2 - lat1) * Real.pi / 180 / 2) +
        Real.cos (lat1 * Real.pi / 180) * Real.cos (lat2 * Real.pi / 180) *
        Real.sin ((lon2 - lon1) * Real.pi / 180 / 2) *
        Real.sin ((lon2 - lon1) * Real.pi / 180 / 2) := by
      rw [hlat, hlon]
      ring
    simp only [calculateDistance, hA]

/-- C7 (counterexample): a malformed point (missing latitude, modelled as
the undefined/NaN-propagating `none`) makes `calculateDistance` RETURN the
NaN value and makes the driver interpolation RETURN a NaN latitude — both
are total functions with no error channel, so neither fails with an
InvalidWaypoint error as the claim requires. -/
theorem malformed_point_yields_nan :
    calculateDistanceJS none (some 0) (some 1) (some 1) = none ∧
    (jsInterpolate ⟨none, some 0⟩ ⟨some 1, some 1⟩ (1 / 20)).lat = none :=
  ⟨rfl, rfl⟩

/-- C7 (amended): with a malformed point the distance and interpolation
silently produce NaN (the undefined-propagating value) instead of failing
with an error, and the driver performs no coordinate validation at all —
a mid-segment tick keeps the registry entry alive no matter what the path
contains, so the simulation is never aborted on malformed data (the
process does not crash either: every handler is total). -/
theorem malformed_point_nan_propagation :
    (∀ lon1 lat2 lon2 : Option ℝ,
      calculateDistanceJS none lon1 lat2 lon2 = none) ∧
    (∀ (lng : Option ℚ) (b : JPoint) (t : ℚ),
      (jsInterpolate ⟨none, lng⟩ b t).lat = none) ∧
    (∀ (m : ℕ) (iv : Option ℕ) (s : ServerState) (e : SimEntry),
      s.sims m = some e → e.currentWaypointIndex < e.path.length - 1 →
      e.progress + 5 / 100 < 1 →
      (tick m iv s).sims m =
        some { e with progress := e.progress + 5 / 100 }) := by
  refine ⟨?_, ?_, ?_⟩
  · intro lon1 lat2 lon2
    cases lat2 <;> cases lon1 <;> cases lon2 <;> rfl
  · intro lng b t
    obtain ⟨blat, blng⟩ := b
    cases blat <;> rfl
  · intro m iv s e hs hlt hp
    exact (tick_move m iv s e hs hlt hp).1

/-- C7 witness: the no-abort behaviour at a concrete mid-flight state —
the tick keeps the entry and just advances its progress. -/
theorem malformed_point_nan_propagation_witness :
    (tick 1 (some 0) exMidState).sims 1 =
      some { exEntryMid with progress := exEntryMid.progress + 5 / 100 } :=
  malformed_point_nan_propagation.2.2 1 (some 0) exMidState exEntryMid rfl
    (by decide) (by norm_num [exEntryMid])

end DroneNav
